import Mathlib

/-!
Shallow embedding of the tasks module (models.py, views.py, ai_tools.py) of a
multi-tenant task tracker, together with proofs about its completion,
follow-up scheduling, urgency classification and dashboard aggregation logic.

Modelling conventions:
* Timestamps are whole minutes on the UTC clock, as integers.  Django runs
  with USE_TZ, so `timezone.now()` and datetimes loaded from the database are
  UTC-aware; `datetime.date()` and `datetime.replace(hour=0, ...)` on such a
  value therefore operate on the UTC calendar.  Epoch day 0 is taken to be a
  Monday, so Python's `weekday()` (Monday = 0) is day-number mod 7.
* The several `timezone.now()` calls made while serving one request are
  modelled as a single instant `now` passed to the operation.
* Free-form character fields (status, priority, task_type) are `String`s,
  exactly as the storage layer keeps them: the code paths in views.py store
  whatever string the request supplies.
* A fallible collaborator (the settings lookup inside the `try` block of
  `task_complete`, and the follow-up insert itself) is modelled by an
  `Except`-valued argument and a Boolean failure flag.
-/

namespace ModuleTasks

/-- Minutes in one calendar day. -/
def minutesPerDay : Int := 1440

/-- Calendar day of a UTC timestamp: Python `datetime.date()` on a UTC-aware
value, as a day number.  Integer `/` is Euclidean division, which for the
positive divisors used here is floor division, i.e. calendar semantics.
Epoch day 0 is a Monday. -/
def utcDay (t : Int) : Int := t / minutesPerDay

/-- Python `datetime.weekday()`: Monday = 0 ... Sunday = 6. -/
def weekdayOf (t : Int) : Int := utcDay t % 7

/-- The spec side only: calendar day of an instant in a tenant-local timezone
sitting `off` minutes ahead of UTC. -/
def specLocalDay (off t : Int) : Int := (t + off) / minutesPerDay

/-- Task entity (models.py, class Task).  Field defaults mirror the model
field defaults used by `Task.objects.create` when a value is not passed. -/
structure Task where
  hub_id : Nat := 0
  title : String := ""
  description : String := ""
  task_type : String := "task"
  priority : String := "medium"
  status : String := "pending"
  due_date : Option Int := none
  completed_at : Option Int := none
  assigned_to : Option Nat := none
  customer : Option Nat := none
  related_lead : Option Nat := none
  duration_minutes : Option Int := none
  result : String := ""
  location : String := ""
  is_recurring : Bool := false
  recurrence_rule : Option String := none
  reminder_before_minutes : Int := 30
  is_deleted : Bool := false
  deleted_at : Option Int := none
  created_at : Int := 0
  created_by : Option Nat := none
  updated_at : Int := 0
  updated_by : Option Nat := none
deriving DecidableEq

/-- Tenant settings (models.py, class TaskSettings), with the model
defaults. Working hours are minutes after local midnight. -/
structure TaskSettings where
  default_reminder_minutes : Int := 30
  auto_create_follow_up : Bool := false
  working_hours_start : Int := 540
  working_hours_end : Int := 1080
deriving DecidableEq

/-- models.py line 34: `PRIORITY_ORDER = ...` dict. -/
def PRIORITY_ORDER : List (String × Nat) :=
  [("urgent", 0), ("high", 1), ("medium", 2), ("low", 3)]

/-- models.py `Task.priority_order`: `PRIORITY_ORDER.get(self.priority, 2)`,
as a function of the stored priority string. -/
def priority_rank (p : String) : Nat := (PRIORITY_ORDER.lookup p).getD 2

/-- models.py `Task.priority_order` property. -/
def Task.priority_order (t : Task) : Nat := priority_rank t.priority

/-- models.py `Task.is_overdue`: past due date and status pending or
in-progress; `timezone.now() > self.due_date` is a strict comparison. -/
def Task.is_overdue (t : Task) (now : Int) : Bool :=
  match t.due_date with
  | some d => (t.status == "pending" || t.status == "in_progress") && decide (now > d)
  | none => false

/-- models.py `Task.is_due_today`: `self.due_date.date() == now.date()`, both
dates taken on the UTC-aware values the ORM hands back. -/
def Task.is_due_today (t : Task) (now : Int) : Bool :=
  match t.due_date with
  | some d => utcDay d == utcDay now
  | none => false

/-- models.py `Task.mark_complete`: status := completed, completed_at := now,
save touches updated_at. -/
def Task.mark_complete (t : Task) (now : Int) : Task :=
  { t with status := "completed", completed_at := some now, updated_at := now }

/-- models.py `Task.mark_reopen`: status := pending, completed_at := null,
save touches updated_at. -/
def Task.mark_reopen (t : Task) (now : Int) : Task :=
  { t with status := "pending", completed_at := none, updated_at := now }

/-- The follow-up row that views.py `task_complete` inserts via
`Task.objects.create(...)`; every field not passed keeps its model default
(in particular status stays "pending"). -/
def followUpTask (hub : Nat) (t : Task) (s : TaskSettings) (now : Int)
    (actor : Option Nat) : Task :=
  { hub_id := hub
    title := "Follow-up: " ++ t.title
    task_type := "follow_up"
    priority := "medium"
    due_date := some (now + 3 * minutesPerDay)
    customer := t.customer
    reminder_before_minutes := s.default_reminder_minutes
    created_by := actor
    created_at := now
    updated_at := now }

/-- Outcome of the `task_complete` view: the saved state of the completed
task, the rows inserted by the scheduler, and whether the view reported
success to the caller. -/
structure CompleteResult where
  task : Task
  created : List Task
  success : Bool
deriving DecidableEq

/-- views.py `task_complete` (lines 391-416).  `settingsResult` is the
outcome of `TaskSettings.get_for_hub`; `createRaises` is true when the
follow-up insert itself raises.  Both failures land in the `except` clause,
which swallows them; `messages.success` runs afterwards in every path. -/
def task_complete (hub : Nat) (t : Task) (settingsResult : Except String TaskSettings)
    (createRaises : Bool) (now : Int) (actor : Option Nat) : CompleteResult :=
  let task := t.mark_complete now
  match settingsResult with
  | Except.error _ => { task := task, created := [], success := true }
  | Except.ok s =>
      if s.auto_create_follow_up && (task.task_type == "call" || task.task_type == "meeting") then
        if createRaises then { task := task, created := [], success := true }
        else { task := task, created := [followUpTask hub task s now actor], success := true }
      else { task := task, created := [], success := true }

/-- The POST body consumed by views.py `task_edit` (already past the
non-empty-title guard).  `status` is `None` when the form omits the field, in
which case `request.POST.get` falls back to the task's current status. -/
structure EditPost where
  title : String
  description : String := ""
  task_type : String := "task"
  priority : String := "medium"
  status : Option String := none
  due_date : Option Int := none
  customer : Option Nat := none
  duration_minutes : Option Int := none
  location : String := ""
  result : String := ""
  reminder_before_minutes : Int := 30
deriving DecidableEq

/-- views.py `task_edit` POST branch (lines 297-340): field-by-field
assignment followed by `task.save()`.  `completed_at` is never touched. -/
def task_edit_apply (t : Task) (p : EditPost) (actor : Option Nat) (now : Int) : Task :=
  { t with
    title := p.title
    description := p.description
    task_type := p.task_type
    priority := p.priority
    status := p.status.getD t.status
    due_date := p.due_date
    customer := p.customer
    duration_minutes := p.duration_minutes
    location := p.location
    result := p.result
    reminder_before_minutes := p.reminder_before_minutes
    updated_by := actor
    updated_at := now }

/-- views.py `task_bulk_action`, `complete` branch (lines 446-449):
`tasks.update(status='completed', completed_at=now)`.  A queryset update
bypasses `save`, so audit timestamps are not refreshed. -/
def task_bulk_complete (ts : List Task) (now : Int) : List Task :=
  ts.map fun t => { t with status := "completed", completed_at := some now }

/-- views.py `dashboard`: `today_start = now.replace(hour=0, minute=0, ...)`
on the UTC-aware `timezone.now()`. -/
def today_start (now : Int) : Int := minutesPerDay * utcDay now

/-- views.py `dashboard`:
`week_start = today_start - timedelta(days=today_start.weekday())`. -/
def week_start (now : Int) : Int :=
  today_start now - minutesPerDay * weekdayOf (today_start now)

/-- views.py `dashboard`: `week_end = week_start + timedelta(days=7)`. -/
def week_end (now : Int) : Int := week_start now + 7 * minutesPerDay

/-- Filter predicate of the `completed_this_week` queryset (views.py lines
103-105) over the tenant store: hub-scoped, soft-delete-excluded base
queryset, status completed, `completed_at__gte=week_start` and
`completed_at__lt=week_end` (a NULL completed_at fails both lookups). -/
def completedThisWeekPred (hub : Nat) (now : Int) (t : Task) : Bool :=
  t.hub_id == hub && !t.is_deleted && t.status == "completed" &&
    (match t.completed_at with
     | some c => decide (week_start now ≤ c) && decide (c < week_end now)
     | none => false)

/-- views.py `dashboard` `completed_this_week` counter, with the persistent
store modelled as a list of task rows. -/
def completed_this_week (store : List Task) (hub : Nat) (now : Int) : Nat :=
  (store.filter (completedThisWeekPred hub now)).length

/-- The spec side only: the same counter with the week starting Monday 00:00
in a tenant-local timezone `off` minutes ahead of UTC, as the spec words it. -/
def specCompletedThisWeekLocal (off : Int) (store : List Task) (hub : Nat) (now : Int) : Nat :=
  let ld := specLocalDay off now
  let ws := minutesPerDay * (ld - ld % 7) - off
  (store.filter fun t =>
    t.hub_id == hub && !t.is_deleted && t.status == "completed" &&
      (match t.completed_at with
       | some c => decide (ws ≤ c) && decide (c < ws + 7 * minutesPerDay)
       | none => false)).length

/-- The spec side only: the UTC Monday-floor week start, written
independently of the dashboard arithmetic. -/
def specUtcWeekStart (now : Int) : Int :=
  7 * minutesPerDay * (utcDay now / 7)

/-- One ordering key handed to the storage layer: a model field plus a
descending flag (Django spells a descending key with a leading minus). -/
structure OrderKey where
  field : String
  desc : Bool
deriving DecidableEq

/-- views.py line 30: `TASK_SORT_FIELDS` mapping of request sort names to
model fields. -/
def TASK_SORT_FIELDS : List (String × String) :=
  [("title", "title"), ("due_date", "due_date"), ("priority", "priority"),
   ("status", "status"), ("type", "task_type"), ("created", "created_at")]

/-- views.py `task_list` (lines 159-194): the ordering key list passed to
`order_by`.  Missing request parameters default to sort "due_date" and
direction "desc"; an unknown sort name falls back to "due_date".  The single
resulting key replaces the model Meta ordering entirely. -/
def task_list_order (sortParam dirParam : Option String) : List OrderKey :=
  let sort_field := sortParam.getD "due_date"
  let sort_dir := dirParam.getD "desc"
  let ob := (TASK_SORT_FIELDS.lookup sort_field).getD "due_date"
  [{ field := ob, desc := sort_dir == "desc" }]

/-- views.py `_render_task_list` line 59:
`order_by('-due_date', '-created_at')`. -/
def render_task_list_order : List OrderKey :=
  [{ field := "due_date", desc := true }, { field := "created_at", desc := true }]

/-- models.py `Task.Meta.ordering = ['-due_date', '-created_at']`. -/
def meta_ordering : List OrderKey :=
  [{ field := "due_date", desc := true }, { field := "created_at", desc := true }]

/-- Value of a date-valued ordering field on a row; other fields compare as
an always-equal blank here (only the date keys matter to the claims). -/
def dateKeyVal (f : String) (t : Task) : Option Int :=
  if f == "due_date" then t.due_date
  else if f == "created_at" then some t.created_at
  else none

/-- Whether a pair of adjacent result rows `a` before `b` is consistent with
an ordering key list: lexicographic, descending keys reversed, ties passed to
the remaining keys.  A store may return `a` before `b` iff this holds. -/
def pairRespects (keys : List OrderKey) (a b : Task) : Bool :=
  match keys with
  | [] => true
  | k :: rest =>
      match dateKeyVal k.field a, dateKeyVal k.field b with
      | some va, some vb =>
          if va == vb then pairRespects rest a b
          else if k.desc then decide (vb < va) else decide (va < vb)
      | _, _ => pairRespects rest a b

/-- ai_tools.py `UpdateTaskStatus.execute`: assigns the status, stamping
completed_at only when the new status is "completed"; never clears it. -/
def update_task_status (t : Task) (statusArg : Option String)
    (priorityArg : Option String) (resultArg : Option String) (now : Int) : Task :=
  let t1 := match statusArg with
    | some st =>
        if st == "completed" then { t with status := st, completed_at := some now }
        else { t with status := st }
    | none => t
  let t2 := match priorityArg with
    | some p => { t1 with priority := p }
    | none => t1
  match resultArg with
  | some r => { t2 with result := r }
  | none => t2

/-- The cross-field invariant of spec section 3: completed_at is set iff the
status is "completed". -/
def completedAtInvariant (t : Task) : Prop :=
  t.status = "completed" ↔ t.completed_at ≠ none

/-- Concrete fixtures used by witnesses and counterexamples. -/
def blankTask : Task := {}

/-- A pending call task, as in the spec scenario of section 8. -/
def callCheckIn : Task := { title := "Client check-in", task_type := "call" }

/-- Tenant settings with follow-up creation enabled and a 15-minute default
reminder, as in the spec scenario of section 8. -/
def settingsOn : TaskSettings :=
  { default_reminder_minutes := 15, auto_create_follow_up := true }

/-- A tenant-1 task completed at minute 10020 (UTC Sunday 23:00 of epoch week
one). -/
def sundayCompletion : Task :=
  { hub_id := 1, status := "completed", completed_at := some 10020 }

/-!  Helper lemmas shared by several proofs. -/

/-- In every branch of `task_complete` the saved task is the one produced by
`mark_complete`. -/
theorem task_complete_task_eq (hub : Nat) (t : Task) (sr : Except String TaskSettings)
    (cr : Bool) (now : Int) (actor : Option Nat) :
    (task_complete hub t sr cr now actor).task = t.mark_complete now := by
  unfold task_complete
  cases sr with
  | error e => rfl
  | ok s =>
      dsimp only
      split
      · split <;> rfl
      · rfl

/-- Every branch of `task_complete` reports success. -/
theorem task_complete_success_eq (hub : Nat) (t : Task) (sr : Except String TaskSettings)
    (cr : Bool) (now : Int) (actor : Option Nat) :
    (task_complete hub t sr cr now actor).success = true := by
  unfold task_complete
  cases sr with
  | error e => rfl
  | ok s =>
      dsimp only
      split
      · split <;> rfl
      · rfl

/-- C1: completing a task when auto_create_follow_up is on and the type is
call or meeting creates exactly one follow-up task with the stated fields;
completing a task of type task, email or follow_up creates none. -/
theorem c1_follow_up_scheduling :
    (∀ (hub : Nat) (t : Task) (s : TaskSettings) (now : Int) (actor : Option Nat),
      s.auto_create_follow_up = true →
      (t.task_type = "call" ∨ t.task_type = "meeting") →
      (task_complete hub t (Except.ok s) false now actor).task.completed_at = some now ∧
      ∃ f, (task_complete hub t (Except.ok s) false now actor).created = [f] ∧
        f.task_type = "follow_up" ∧
        f.title = "Follow-up: " ++ t.title ∧
        f.priority = "medium" ∧
        f.due_date = some (now + 3 * minutesPerDay) ∧
        f.customer = t.customer ∧
        f.reminder_before_minutes = s.default_reminder_minutes ∧
        f.status = "pending") ∧
    (∀ (hub : Nat) (t : Task) (s : TaskSettings) (now : Int) (actor : Option Nat),
      (t.task_type = "task" ∨ t.task_type = "email" ∨ t.task_type = "follow_up") →
      (task_complete hub t (Except.ok s) false now actor).created = []) := by
  constructor
  · intro hub t s now actor hauto hty
    constructor
    · rw [task_complete_task_eq]; rfl
    · have hcreated : (task_complete hub t (Except.ok s) false now actor).created =
          [followUpTask hub (t.mark_complete now) s now actor] := by
        rcases hty with h | h <;>
          simp [task_complete, Task.mark_complete, hauto, h]
      exact ⟨followUpTask hub (t.mark_complete now) s now actor, hcreated,
        rfl, rfl, rfl, rfl, rfl, rfl, rfl⟩
  · intro hub t s now actor hty
    rcases hty with h | h | h <;>
      simp [task_complete, Task.mark_complete, h]

/-- C1 witness: the spec scenario of section 8 instantiated concretely. -/
theorem c1_follow_up_scheduling_witness :
    ((task_complete 1 callCheckIn (Except.ok settingsOn) false 100 none).task.completed_at =
        some 100 ∧
      ∃ f, (task_complete 1 callCheckIn (Except.ok settingsOn) false 100 none).created = [f] ∧
        f.task_type = "follow_up" ∧
        f.title = "Follow-up: " ++ callCheckIn.title ∧
        f.priority = "medium" ∧
        f.due_date = some (100 + 3 * minutesPerDay) ∧
        f.customer = callCheckIn.customer ∧
        f.reminder_before_minutes = settingsOn.default_reminder_minutes ∧
        f.status = "pending") ∧
    (task_complete 1 blankTask (Except.ok settingsOn) false 100 none).created = [] :=
  ⟨c1_follow_up_scheduling.1 1 callCheckIn settingsOn 100 none rfl (Or.inl rfl),
   c1_follow_up_scheduling.2 1 blankTask settingsOn 100 none (Or.inl rfl)⟩

/-- C2: is_overdue holds exactly when the due date is set, lies strictly in
the past, and the status is pending or in_progress; completed and cancelled
tasks are never overdue. -/
theorem c2_is_overdue_characterisation :
    (∀ (t : Task) (now : Int),
      t.is_overdue now = true ↔
        (∃ d, t.due_date = some d ∧ d < now) ∧
          (t.status = "pending" ∨ t.status = "in_progress")) ∧
    (∀ (t : Task) (now : Int),
      t.status = "completed" ∨ t.status = "cancelled" → t.is_overdue now = false) := by
  constructor
  · intro t now
    cases hdd : t.due_date with
    | none => simp [Task.is_overdue, hdd]
    | some d =>
        simp [Task.is_overdue, hdd]
        tauto
  · intro t now h
    rcases h with h | h <;> cases hdd : t.due_date <;>
      simp [Task.is_overdue, hdd, h]

/-- C2 witness: a completed task with a past due date is not overdue. -/
theorem c2_is_overdue_witness :
    Task.is_overdue { blankTask with status := "completed", due_date := some 0 } 5 = false :=
  c2_is_overdue_characterisation.2
    { blankTask with status := "completed", due_date := some 0 } 5 (Or.inl rfl)

/-- C3: whatever the outcome of the settings lookup or the follow-up insert,
the completed task keeps status completed with completed_at stamped, and the
view reports success. -/
theorem c3_completion_best_effort :
    ∀ (hub : Nat) (t : Task) (sr : Except String TaskSettings) (cr : Bool)
      (now : Int) (actor : Option Nat),
      (task_complete hub t sr cr now actor).task.status = "completed" ∧
      (task_complete hub t sr cr now actor).task.completed_at = some now ∧
      (task_complete hub t sr cr now actor).success = true := by
  intro hub t sr cr now actor
  refine ⟨?_, ?_, task_complete_success_eq hub t sr cr now actor⟩ <;>
    rw [task_complete_task_eq] <;> rfl

/-- C6: the priority ranks form the strict chain urgent 0 < high 1 <
medium 2 < low 3, and every other string gets the medium rank 2. -/
theorem c6_priority_rank_total_order :
    priority_rank "urgent" = 0 ∧ priority_rank "high" = 1 ∧
    priority_rank "medium" = 2 ∧ priority_rank "low" = 3 ∧
    priority_rank "urgent" < priority_rank "high" ∧
    priority_rank "high" < priority_rank "medium" ∧
    priority_rank "medium" < priority_rank "low" ∧
    (∀ p : String, p ≠ "urgent" → p ≠ "high" → p ≠ "medium" → p ≠ "low" →
      priority_rank p = 2) := by
  refine ⟨rfl, rfl, rfl, rfl, by decide, by decide, by decide, ?_⟩
  intro p h1 h2 h3 h4
  simp only [priority_rank, PRIORITY_ORDER, List.lookup]
  rw [beq_eq_false_iff_ne.mpr h1, beq_eq_false_iff_ne.mpr h2,
    beq_eq_false_iff_ne.mpr h3, beq_eq_false_iff_ne.mpr h4]
  rfl

/-- C6 witness: an unrecognized priority string ranks as medium. -/
theorem c6_priority_rank_witness : priority_rank "blocker" = 2 :=
  c6_priority_rank_total_order.2.2.2.2.2.2.2 "blocker"
    (by decide) (by decide) (by decide) (by decide)

/-- C10: completion changes only status, completed_at and updated_at on the
original task; every other persisted field is untouched, also when a
follow-up row is inserted. -/
theorem c10_completion_frame :
    ∀ (hub : Nat) (t : Task) (sr : Except String TaskSettings) (cr : Bool)
      (now : Int) (actor : Option Nat),
      (task_complete hub t sr cr now actor).task.title = t.title ∧
      (task_complete hub t sr cr now actor).task.description = t.description ∧
      (task_complete hub t sr cr now actor).task.task_type = t.task_type ∧
      (task_complete hub t sr cr now actor).task.priority = t.priority ∧
      (task_complete hub t sr cr now actor).task.due_date = t.due_date ∧
      (task_complete hub t sr cr now actor).task.customer = t.customer ∧
      (task_complete hub t sr cr now actor).task.reminder_before_minutes =
        t.reminder_before_minutes ∧
      (task_complete hub t sr cr now actor).task.assigned_to = t.assigned_to ∧
      (task_complete hub t sr cr now actor).task.is_deleted = t.is_deleted := by
  intro hub t sr cr now actor
  simp [task_complete_task_eq, Task.mark_complete]

/-- C4 counterexample: editing a pending task with the status field set to
"completed" saves status "completed" while completed_at stays null, so the
claimed invariant fails under the edit operation. -/
theorem c4_counterexample :
    (task_edit_apply blankTask { title := "T", status := some "completed" } none 0).status =
      "completed" ∧
    (task_edit_apply blankTask { title := "T", status := some "completed" } none 0).completed_at =
      none :=
  ⟨rfl, rfl⟩

/-- C4 amended: the paired-field invariant holds after complete, reopen and
bulk complete; the edit path (and the assistant status-update tool) can break
it because they assign status without maintaining completed_at. -/
theorem c4_amended_paired_fields :
    (∀ (t : Task) (now : Int), completedAtInvariant (t.mark_complete now)) ∧
    (∀ (t : Task) (now : Int), completedAtInvariant (t.mark_reopen now)) ∧
    (∀ (ts : List Task) (now : Int) (t : Task),
      t ∈ task_bulk_complete ts now → completedAtInvariant t) := by
  refine ⟨?_, ?_, ?_⟩
  · intro t now
    simp [completedAtInvariant, Task.mark_complete]
  · intro t now
    simp [completedAtInvariant, Task.mark_reopen]
  · intro ts now t ht
    rcases List.mem_map.mp (by simpa [task_bulk_complete] using ht) with ⟨a, -, rfl⟩
    simp [completedAtInvariant]

/-- C4 amended witness: the row a bulk complete writes satisfies the
invariant. -/
theorem c4_amended_witness :
    completedAtInvariant { blankTask with status := "completed", completed_at := some 5 } :=
  c4_amended_paired_fields.2.2 [blankTask] 5
    { blankTask with status := "completed", completed_at := some 5 }
    (by simp [task_bulk_complete])

/-- C5 counterexample: completing an already-completed call task with the
follow-up setting on re-stamps completed_at to the second instant (1440, not
the first instant 0) and creates a second follow-up row. -/
theorem c5_counterexample :
    (task_complete 1 (task_complete 1 callCheckIn (Except.ok settingsOn) false 0 none).task
        (Except.ok settingsOn) false 1440 none).task.completed_at = some 1440 ∧
    (task_complete 1 (task_complete 1 callCheckIn (Except.ok settingsOn) false 0 none).task
        (Except.ok settingsOn) false 1440 none).task.completed_at ≠ some 0 ∧
    (task_complete 1 (task_complete 1 callCheckIn (Except.ok settingsOn) false 0 none).task
        (Except.ok settingsOn) false 1440 none).created.length = 1 := by
  refine ⟨rfl, by decide, rfl⟩

/-- C5 amended: a second complete call leaves status completed but re-stamps
completed_at to the second call's instant, and it re-runs the scheduler
exactly as the first call did (same number of rows created), because the
trigger checks only the task type and the setting, not a genuine
transition. -/
theorem c5_amended_recompletion :
    ∀ (hub : Nat) (t : Task) (s : TaskSettings) (cr : Bool) (now1 now2 : Int)
      (a1 a2 : Option Nat),
      (task_complete hub (task_complete hub t (Except.ok s) cr now1 a1).task
          (Except.ok s) cr now2 a2).task.status = "completed" ∧
      (task_complete hub (task_complete hub t (Except.ok s) cr now1 a1).task
          (Except.ok s) cr now2 a2).task.completed_at = some now2 ∧
      (task_complete hub (task_complete hub t (Except.ok s) cr now1 a1).task
          (Except.ok s) cr now2 a2).created.length =
        (task_complete hub t (Except.ok s) cr now1 a1).created.length := by
  intro hub t s cr now1 now2 a1 a2
  refine ⟨?_, ?_, ?_⟩
  · rw [task_complete_task_eq]; rfl
  · rw [task_complete_task_eq]; rfl
  · rw [task_complete_task_eq]
    by_cases hc :
        (s.auto_create_follow_up && (t.task_type == "call" || t.task_type == "meeting")) = true
    · cases cr <;> simp [task_complete, Task.mark_complete, hc]
    · simp [task_complete, Task.mark_complete,
        Bool.not_eq_true _ ▸ hc]

/-- C7 counterexample: for a tenant 60 minutes ahead of UTC, a task due at
minute 1430 shares its tenant-local calendar day with instant 1450, yet
is_due_today is false there, because the code compares the dates of the
stored UTC values. -/
theorem c7_counterexample :
    Task.is_due_today { blankTask with due_date := some 1430 } 1450 = false ∧
    Task.due_date { blankTask with due_date := some 1430 } = some 1430 ∧
    specLocalDay 60 1430 = specLocalDay 60 1450 := by
  refine ⟨rfl, rfl, by decide⟩

/-- C7 amended: is_due_today holds exactly when the due date is set and its
UTC calendar day equals the current UTC calendar day, independent of status;
the tenant-local reading only matches for tenants at UTC offset zero. -/
theorem c7_amended_utc_day :
    ∀ (t : Task) (now : Int),
      (t.is_due_today now = true ↔
        ∃ d, t.due_date = some d ∧ utcDay d = utcDay now) ∧
      (∀ st : String, Task.is_due_today { t with status := st } now = t.is_due_today now) := by
  intro t now
  constructor
  · cases hdd : t.due_date <;> simp [Task.is_due_today, hdd]
  · intro st
    cases hdd : t.due_date <;> simp [Task.is_due_today, hdd]

/-- C8 counterexample: with no caller-supplied sort, the list view sends a
single ordering key (due_date descending) to the store, not the two-key
ordering claimed; two rows tied on due_date may come back with the older
created_at first, which the claimed ordering forbids. -/
theorem c8_counterexample :
    task_list_order none none ≠ meta_ordering ∧
    pairRespects (task_list_order none none)
      { blankTask with due_date := some 100, created_at := 1 }
      { blankTask with due_date := some 100, created_at := 2 } = true ∧
    pairRespects meta_ordering
      { blankTask with due_date := some 100, created_at := 1 }
      { blankTask with due_date := some 100, created_at := 2 } = false := by
  refine ⟨by decide, by decide, by decide⟩

/-- C8 amended: the default listing orders by due_date descending only; the
due_date-then-created_at descending ordering belongs to the model Meta
default and the post-mutation partial; an explicit sort field is mapped
through TASK_SORT_FIELDS and used with the requested direction. -/
theorem c8_amended_order_keys :
    task_list_order none none = [{ field := "due_date", desc := true }] ∧
    render_task_list_order =
      [{ field := "due_date", desc := true }, { field := "created_at", desc := true }] ∧
    meta_ordering =
      [{ field := "due_date", desc := true }, { field := "created_at", desc := true }] ∧
    (∀ (sname f dir : String), TASK_SORT_FIELDS.lookup sname = some f →
      task_list_order (some sname) (some dir) = [{ field := f, desc := dir == "desc" }]) := by
  refine ⟨rfl, rfl, rfl, ?_⟩
  intro sname f dir h
  simp [task_list_order, h]

/-- C8 amended witness: sorting by title ascending yields the title key. -/
theorem c8_amended_witness :
    task_list_order (some "title") (some "asc") = [{ field := "title", desc := false }] := by
  simpa using c8_amended_order_keys.2.2.2 "title" "title" "asc" (by decide)

/-- C9 counterexample: for a tenant 600 minutes ahead of UTC, computing the
dashboard shortly after UTC Monday midnight (instant 10110, epoch day 0 a
Monday), a task completed at 10020 counts under the tenant-local Monday week
claimed by the spec but not under the dashboard's arithmetic, which works on
the UTC clock. -/
theorem c9_counterexample :
    completed_this_week [sundayCompletion] 1 10110 = 0 ∧
    specCompletedThisWeekLocal 600 [sundayCompletion] 1 10110 = 1 := by
  refine ⟨by decide, by decide⟩

/-- The dashboard's `today_start - weekday days` arithmetic lands on the UTC
Monday floor of the current week. -/
theorem week_start_eq_specUtcWeekStart (now : Int) :
    week_start now = specUtcWeekStart now := by
  simp only [week_start, specUtcWeekStart, today_start, weekdayOf, utcDay, minutesPerDay]
  omega

/-- C9 amended: completed_this_week counts exactly the non-deleted,
tenant-scoped completed tasks whose completed_at lies in the half-open week
starting at the most recent Monday 00:00 of the UTC clock the timestamps are
stored in (tenant-local only for tenants at UTC offset zero). -/
theorem c9_amended_utc_week :
    ∀ (store : List Task) (hub : Nat) (now : Int),
      completed_this_week store hub now =
        (store.filter fun t =>
          t.hub_id == hub && !t.is_deleted && t.status == "completed" &&
            (match t.completed_at with
             | some c => decide (specUtcWeekStart now ≤ c ∧
                 c < specUtcWeekStart now + 7 * minutesPerDay)
             | none => false)).length := by
  intro store hub now
  unfold completed_this_week
  refine congrArg List.length (List.filter_congr ?_)
  intro t _
  unfold completedThisWeekPred
  cases hc : t.completed_at with
  | none => rfl
  | some c =>
      simp [week_end, week_start_eq_specUtcWeekStart, Bool.decide_and]

end ModuleTasks
